import Mathlib

/-!
# Verification of the Indy-Besu VDR DID registry interface

Shallow embedding of `src/indy-besu/vdr/wasm/src/contracts/did_registry.rs`
and of the underlying `indy2_vdr` DID-registry core it calls into.  The core
(`did_registry::build_*`, `parse_resolve_did_result`, `Address`, `DID`,
`DidDocument`, the on-chain wire encoding) is not part of the sources, so it
is modelled from the design specification; the wasm shim's entry points and
their calling discipline (shared client reference, `Result`-typed returns)
are embedded from the source file.
-/

namespace IndyBesu

/-- Modelled from the spec: error taxonomy of the core (§7): validation,
encoding, decoding, not-found and transport errors, each a single typed
error value surfaced to the caller. -/
inductive VdrError where
  | ValidationError
  | EncodingError
  | DecodingError
  | NotFoundError
  | TransportError
deriving DecidableEq, Repr

/-- Modelled from the spec: a verification method of a DID document —
public-key material with an identifier and a type (§3). -/
structure VerificationMethod where
  id : String
  methodType : String
  publicKeyMultibase : String
deriving DecidableEq, Repr

/-- Modelled from the spec: a service endpoint descriptor of a DID
document (§3). -/
structure Service where
  id : String
  serviceEndpoint : String
deriving DecidableEq, Repr

/-- Modelled from the spec: the DID document record — the DID, the
verification methods and the services (§3). -/
structure DidDocument where
  id : String
  verificationMethod : List VerificationMethod
  service : List Service
deriving DecidableEq, Repr

/-- Split a character list at every colon. -/
def splitColon : List Char → List (List Char)
  | [] => [[]]
  | c :: cs =>
    let r := splitColon cs
    if c = ':' then [] :: r
    else
      match r with
      | p :: ps => (c :: p) :: ps
      | [] => [[c]]

/-- Modelled from the spec: DID validity — the fixed scheme
`did:<method>:<id>` with a non-empty method and identifier (§3). -/
def isValidDid (s : String) : Bool :=
  match splitColon s.data with
  | scheme :: m :: rest =>
    scheme = ['d', 'i', 'd'] && !m.isEmpty && !rest.isEmpty
      && rest.all (fun p => !p.isEmpty)
  | _ => false

/-- Hexadecimal digit test for address characters. -/
def isHexDigit (c : Char) : Bool :=
  c.isDigit || ('a' ≤ c && c ≤ 'f') || ('A' ≤ c && c ≤ 'F')

/-- Modelled from the spec: Address validity — the fixed-length hex
representation of a 20-byte ledger account identifier (§3, §8). -/
def isValidAddress (s : String) : Bool :=
  match s.data with
  | '0' :: 'x' :: digits => digits.length = 40 && digits.all isHexDigit
  | _ => false

/-- Modelled from the spec: verification-method identifiers are unique
within the document (§3). -/
def vmIdsUnique (d : DidDocument) : Bool :=
  decide (d.verificationMethod.map VerificationMethod.id).Nodup

/-- Modelled from the spec: DidDocument invariants — the DID field matches
the identifier grammar and verification-method ids are unique (§3). -/
def isValidDidDocument (d : DidDocument) : Bool :=
  isValidDid d.id && vmIdsUnique d

/-- Modelled from the spec: the verification-method types the on-chain
encoding supports; an unsupported type makes serialization impossible
(§4.1, `EncodingError`). -/
def supportedVmTypes : List String :=
  [r"Ed25519VerificationKey2018", r"X25519KeyAgreementKey2020"]

/-- A string fits into the four-byte length field of the wire encoding. -/
def strOk (s : String) : Bool :=
  s.length < 4294967296

/-- All fields of a verification method fit the wire encoding. -/
def vmOk (vm : VerificationMethod) : Bool :=
  strOk vm.id && strOk vm.methodType && strOk vm.publicKeyMultibase

/-- All fields of a service fit the wire encoding. -/
def serviceOk (sv : Service) : Bool :=
  strOk sv.id && strOk sv.serviceEndpoint

/-- Modelled from the spec: the document can be serialized to the on-chain
form — every verification-method type is supported and every field and
collection fits the fixed-width length prefixes (§4.1). -/
def isEncodable (d : DidDocument) : Bool :=
  strOk d.id
    && decide (d.verificationMethod.length < 4294967296)
    && decide (d.service.length < 4294967296)
    && d.verificationMethod.all vmOk
    && d.service.all serviceOk
    && d.verificationMethod.all (fun vm => supportedVmTypes.contains vm.methodType)

/-- Big-endian four-byte rendering of a length (modulo 2 ^ 32). -/
def natToBytes4 (n : Nat) : List Nat :=
  [n / 16777216 % 256, n / 65536 % 256, n / 256 % 256, n % 256]

/-- Read back a big-endian four-byte length. -/
def bytes4ToNat (b3 b2 b1 b0 : Nat) : Nat :=
  b3 * 16777216 + b2 * 65536 + b1 * 256 + b0

/-- Modelled from the spec: length-prefixed string serialization of the
registry's wire format (§4.2). -/
def encodeString (s : String) : List Nat :=
  natToBytes4 s.length ++ s.data.map Char.toNat

/-- Wire-format string deserialization: four-byte length, then that many
code units; returns the string and the remaining bytes. -/
def decodeString : List Nat → Option (String × List Nat)
  | b3 :: b2 :: b1 :: b0 :: rest =>
    let n := bytes4ToNat b3 b2 b1 b0
    if n ≤ rest.length then
      some (String.mk ((rest.take n).map Char.ofNat), rest.drop n)
    else none
  | _ => none

/-- Wire serialization of one verification method. -/
def encodeVerificationMethod (vm : VerificationMethod) : List Nat :=
  encodeString vm.id ++ encodeString vm.methodType
    ++ encodeString vm.publicKeyMultibase

/-- Wire deserialization of one verification method. -/
def decodeVerificationMethod (bs : List Nat) :
    Option (VerificationMethod × List Nat) := do
  let (i, bs) ← decodeString bs
  let (t, bs) ← decodeString bs
  let (k, bs) ← decodeString bs
  pure (⟨i, t, k⟩, bs)

/-- Wire serialization of one service. -/
def encodeService (sv : Service) : List Nat :=
  encodeString sv.id ++ encodeString sv.serviceEndpoint

/-- Wire deserialization of one service. -/
def decodeService (bs : List Nat) : Option (Service × List Nat) := do
  let (i, bs) ← decodeString bs
  let (e, bs) ← decodeString bs
  pure (⟨i, e⟩, bs)

/-- Modelled from the spec: count-prefixed list serialization of the
registry's wire format (§4.2). -/
def encodeListWith (f : α → List Nat) (xs : List α) : List Nat :=
  natToBytes4 xs.length ++ (xs.map f).flatten

/-- Deserialize exactly `n` items with the item decoder `f`. -/
def decodeCount (f : List Nat → Option (α × List Nat)) :
    Nat → List Nat → Option (List α × List Nat)
  | 0, bs => some ([], bs)
  | n + 1, bs => do
    let (x, bs1) ← f bs
    let (xs, bs2) ← decodeCount f n bs1
    pure (x :: xs, bs2)

/-- Wire deserialization of a count-prefixed list. -/
def decodeListWith (f : List Nat → Option (α × List Nat)) :
    List Nat → Option (List α × List Nat)
  | b3 :: b2 :: b1 :: b0 :: rest => decodeCount f (bytes4ToNat b3 b2 b1 b0) rest
  | _ => none

/-- Modelled from the spec: the fixed wire header of the resolve-result
schema — three magic bytes and a wire-version byte; a presence flag byte
follows it (§4.2, §8). -/
def wireHeader : List Nat :=
  [100, 105, 100, 1]

/-- Wire serialization of a whole document body (after header and flag). -/
def encodeDidDocumentBody (d : DidDocument) : List Nat :=
  encodeString d.id
    ++ encodeListWith encodeVerificationMethod d.verificationMethod
    ++ encodeListWith encodeService d.service

/-- Wire deserialization of a document body. -/
def decodeDidDocumentBody (bs : List Nat) : Option (DidDocument × List Nat) := do
  let (i, bs) ← decodeString bs
  let (vms, bs) ← decodeListWith decodeVerificationMethod bs
  let (svcs, bs) ← decodeListWith decodeService bs
  pure (⟨i, vms, svcs⟩, bs)

/-- Modelled from the spec: the on-chain document encoding used by the
builder — fixed header, presence flag, then the length-prefixed body
(§4.2: encode and decode are mutual inverses). -/
def encodeDidDocument (d : DidDocument) : List Nat :=
  wireHeader ++ 1 :: encodeDidDocumentBody d

/-- Modelled from the spec: the four registry operations a transaction can
encode (§4.1). -/
inductive DidOperation where
  | create
  | update
  | deactivate
  | resolve
deriving DecidableEq, Repr

/-- Modelled from the spec: the chain metadata the builder fetches from the
Ledger Client — nonce, gas parameters, chain id (§2, §3). -/
structure ChainMetadata where
  chainId : Nat
  nonce : Nat
  gasLimit : Nat
deriving DecidableEq, Repr

/-- Modelled from the spec: the Ledger Client — configuration for reaching
the ledger (endpoint), the registry contract address, and its current view
of the chain: what a metadata fetch returns, a `TransportError` when the
network layer fails (§3, §6).  The wasm shim passes it by shared reference
(`&LedgerClientWrapper`). -/
structure LedgerClient where
  endpoint : String
  contractAddress : String
  chainView : Except VdrError ChainMetadata

/-- Modelled from the spec: an unsigned registry transaction — target
contract address, the operation it encodes, the encoded call data, and the
chain metadata the chain needs (§3). -/
structure Transaction where
  toAddress : String
  op : DidOperation
  callData : List Nat
  chainId : Nat
  nonce : Nat
  gasLimit : Nat
deriving DecidableEq, Repr

/-- The network operations an entry point may perform against the Ledger
Client (§6): the async chain-metadata fetch used by the builders, and the
read-only call execution (performed by the caller, never by the core). -/
inductive LedgerCall where
  | fetchChainMetadata
  | executeReadCall
deriving DecidableEq, Repr

/-- Outcome of one entry-point call: the client state after the call (the
shim takes the client by shared reference), the network operations
performed, and the `Result`-typed return value of the entry point. -/
structure CallOutcome (α : Type) where
  clientAfter : LedgerClient
  calls : List LedgerCall
  result : Except VdrError α

/-- `buildCreateDidTransaction` (did_registry.rs lines 13–21, core modelled
from the spec §4.1): validate the sender address and the document, then
fetch chain metadata and return an unsigned create transaction whose call
data is the encoded document. -/
def build_create_did_transaction (client : LedgerClient) (fromAddr : String)
    (didDoc : DidDocument) : CallOutcome Transaction :=
  if isValidAddress fromAddr then
    if isValidDidDocument didDoc then
      if isEncodable didDoc then
        match client.chainView with
        | .error e => ⟨client, [.fetchChainMetadata], .error e⟩
        | .ok md =>
          ⟨client, [.fetchChainMetadata],
            .ok
              { toAddress := client.contractAddress, op := .create,
                callData := encodeDidDocument didDoc,
                chainId := md.chainId, nonce := md.nonce,
                gasLimit := md.gasLimit }⟩
      else ⟨client, [], .error .EncodingError⟩
    else ⟨client, [], .error .ValidationError⟩
  else ⟨client, [], .error .ValidationError⟩

/-- `buildUpdateDidTransaction` (did_registry.rs lines 23–31, core modelled
from the spec §4.1): same contract as create but the transaction encodes an
update call; no builder-time existence check. -/
def build_update_did_transaction (client : LedgerClient) (fromAddr : String)
    (didDoc : DidDocument) : CallOutcome Transaction :=
  if isValidAddress fromAddr then
    if isValidDidDocument didDoc then
      if isEncodable didDoc then
        match client.chainView with
        | .error e => ⟨client, [.fetchChainMetadata], .error e⟩
        | .ok md =>
          ⟨client, [.fetchChainMetadata],
            .ok
              { toAddress := client.contractAddress, op := .update,
                callData := encodeDidDocument didDoc,
                chainId := md.chainId, nonce := md.nonce,
                gasLimit := md.gasLimit }⟩
      else ⟨client, [], .error .EncodingError⟩
    else ⟨client, [], .error .ValidationError⟩
  else ⟨client, [], .error .ValidationError⟩

/-- `buildDeactivateDidTransaction` (did_registry.rs lines 33–41, core
modelled from the spec §4.1): validate the sender address and the DID, then
fetch metadata and return a deactivate transaction whose call data encodes
only the identifier. -/
def build_deactivate_did_transaction (client : LedgerClient)
    (fromAddr : String) (did : String) : CallOutcome Transaction :=
  if isValidAddress fromAddr then
    if isValidDid did then
      match client.chainView with
      | .error e => ⟨client, [.fetchChainMetadata], .error e⟩
      | .ok md =>
        ⟨client, [.fetchChainMetadata],
          .ok
            { toAddress := client.contractAddress, op := .deactivate,
              callData := encodeString did,
              chainId := md.chainId, nonce := md.nonce,
              gasLimit := md.gasLimit }⟩
    else ⟨client, [], .error .ValidationError⟩
  else ⟨client, [], .error .ValidationError⟩

/-- `buildResolveDidTransaction` (did_registry.rs lines 43–49, core
modelled from the spec §4.1): validate the DID, fetch metadata and return a
read-only resolve call transaction; no sender address is required. -/
def build_resolve_did_transaction (client : LedgerClient) (did : String) :
    CallOutcome Transaction :=
  if isValidDid did then
    match client.chainView with
    | .error e => ⟨client, [.fetchChainMetadata], .error e⟩
    | .ok md =>
      ⟨client, [.fetchChainMetadata],
        .ok
          { toAddress := client.contractAddress, op := .resolve,
            callData := encodeString did,
            chainId := md.chainId, nonce := md.nonce,
            gasLimit := md.gasLimit }⟩
  else ⟨client, [], .error .ValidationError⟩

/-- `parseResolveDidResult` (did_registry.rs lines 51–57, core modelled
from the spec §4.2): synchronous decode of raw ledger return bytes — fixed
header and presence flag, then the document body; `NotFoundError` when the
ledger marked the identifier absent or deactivated, `DecodingError` when
the bytes do not match the schema.  No network operation is performed. -/
def parse_resolve_did_result (client : LedgerClient) (bytes : List Nat) :
    CallOutcome DidDocument :=
  ⟨client, [],
    match bytes with
    | m2 :: m1 :: m0 :: v :: flag :: rest =>
      if [m2, m1, m0, v] = wireHeader then
        if flag = 0 then
          if rest = [] then .error .NotFoundError else .error .DecodingError
        else if flag = 1 then
          match decodeDidDocumentBody rest with
          | some (d, []) => .ok d
          | _ => .error .DecodingError
        else .error .DecodingError
      else .error .DecodingError
    | _ => .error .DecodingError⟩

/-! ## Concrete sample values (used by witnesses) -/

/-- Sample chain metadata a healthy client returns. -/
def sampleMeta : ChainMetadata :=
  ⟨1, 7, 3000000⟩

/-- Sample Ledger Client with a reachable chain view. -/
def sampleClient : LedgerClient :=
  ⟨ r"http://localhost:8545",
    r"0x0000000000000000000000000000000000000003", Except.ok sampleMeta⟩

/-- A second client with the same chain view but another endpoint. -/
def sampleClient2 : LedgerClient :=
  ⟨ r"http://replica:8545",
    r"0x0000000000000000000000000000000000000003", Except.ok sampleMeta⟩

/-- Sample valid sender address: `0x` and forty hex digits. -/
def sampleFrom : String :=
  r"0xaaaaaaaaaaaaaaaaaaaaaaaaaaaaaaaaaaaaaaaa"

/-- Sample malformed sender address: hex but far too short. -/
def sampleBadAddr : String :=
  r"0x1234"

/-- Sample valid DID. -/
def sampleDid : String :=
  r"did:indy:test:123"

/-- Sample verification method. -/
def sampleVm : VerificationMethod :=
  ⟨ r"did:indy:test:123#key-1", r"Ed25519VerificationKey2018",
    r"zAKJP3f7BD6W4iWEQ9jwndVTCBq8ua2Utt8EEjJ6Vie"⟩

/-- Sample service. -/
def sampleService : Service :=
  ⟨ r"did:indy:test:123#service-1", r"https://example.com/endpoint"⟩

/-- Sample valid, encodable DID document. -/
def sampleDoc : DidDocument :=
  ⟨ r"did:indy:test:123", [sampleVm], [sampleService]⟩

/-- The create transaction the builder produces for the sample inputs. -/
def sampleCreateTx : Transaction :=
  { toAddress := sampleClient.contractAddress, op := .create,
    callData := encodeDidDocument sampleDoc,
    chainId := 1, nonce := 7, gasLimit := 3000000 }

/-- The deactivate transaction the builder produces for the sample DID. -/
def sampleDeactivateTx : Transaction :=
  { toAddress := sampleClient.contractAddress, op := .deactivate,
    callData := encodeString sampleDid,
    chainId := 1, nonce := 7, gasLimit := 3000000 }

/-! ## Round-trip lemmas for the wire format -/

theorem bytes4ToNat_natToBytes4 (n : Nat) (h : n < 4294967296) :
    bytes4ToNat (n / 16777216 % 256) (n / 65536 % 256) (n / 256 % 256)
      (n % 256) = n := by
  unfold bytes4ToNat
  omega

theorem decodeString_encodeString (s : String) (r : List Nat)
    (h : strOk s = true) :
    decodeString (encodeString s ++ r) = some (s, r) := by
  have hlen : s.length < 4294967296 := by
    simpa [strOk] using h
  have hmaplen : (s.data.map Char.toNat).length = s.length := by
    rw [List.length_map]
    rfl
  unfold encodeString natToBytes4
  simp only [List.cons_append, List.nil_append, List.append_assoc]
  rw [decodeString]
  rw [bytes4ToNat_natToBytes4 s.length hlen]
  have hle : s.length ≤ (s.data.map Char.toNat ++ r).length := by
    simp [hmaplen]
  rw [if_pos hle]
  have htake : (s.data.map Char.toNat ++ r).take s.length = s.data.map Char.toNat := by
    rw [← hmaplen, List.take_left]
  have hdrop : (s.data.map Char.toNat ++ r).drop s.length = r := by
    rw [← hmaplen, List.drop_left]
  rw [htake, hdrop, List.map_map]
  have hid : (Char.ofNat ∘ Char.toNat) = id := funext fun c => Char.ofNat_toNat c
  rw [hid, List.map_id]

theorem decodeVerificationMethod_encode (vm : VerificationMethod)
    (r : List Nat) (h : vmOk vm = true) :
    decodeVerificationMethod (encodeVerificationMethod vm ++ r) =
      some (vm, r) := by
  obtain ⟨⟨h1, h2⟩, h3⟩ : (strOk vm.id = true ∧ strOk vm.methodType = true) ∧
      strOk vm.publicKeyMultibase = true := by
    simpa [vmOk, Bool.and_eq_true] using h
  unfold encodeVerificationMethod decodeVerificationMethod
  rw [List.append_assoc, List.append_assoc]
  rw [decodeString_encodeString vm.id _ h1]
  simp only [Option.bind_eq_bind, Option.some_bind]
  rw [decodeString_encodeString vm.methodType _ h2]
  simp only [Option.some_bind]
  rw [decodeString_encodeString vm.publicKeyMultibase _ h3]
  simp only [Option.some_bind, Option.pure_def]

theorem decodeService_encode (sv : Service) (r : List Nat)
    (h : serviceOk sv = true) :
    decodeService (encodeService sv ++ r) = some (sv, r) := by
  obtain ⟨h1, h2⟩ : strOk sv.id = true ∧ strOk sv.serviceEndpoint = true := by
    simpa [serviceOk, Bool.and_eq_true] using h
  unfold encodeService decodeService
  rw [List.append_assoc]
  rw [decodeString_encodeString sv.id _ h1]
  simp only [Option.bind_eq_bind, Option.some_bind]
  rw [decodeString_encodeString sv.serviceEndpoint _ h2]
  simp only [Option.some_bind, Option.pure_def]

theorem decodeCount_encode {α : Type} (f : List Nat → Option (α × List Nat))
    (enc : α → List Nat) (xs : List α) (r : List Nat)
    (hf : ∀ x ∈ xs, ∀ r2, f (enc x ++ r2) = some (x, r2)) :
    decodeCount f xs.length ((xs.map enc).flatten ++ r) = some (xs, r) := by
  induction xs generalizing r with
  | nil => simp [decodeCount]
  | cons x xs ih =>
    rw [List.map_cons, List.flatten_cons, List.append_assoc]
    rw [List.length_cons, decodeCount]
    rw [hf x (List.mem_cons_self x xs) ((xs.map enc).flatten ++ r)]
    simp only [Option.bind_eq_bind, Option.some_bind]
    rw [ih r (fun y hy r2 => hf y (List.mem_cons_of_mem x hy) r2)]
    simp only [Option.some_bind, Option.pure_def]

theorem decodeListWith_encode {α : Type} (f : List Nat → Option (α × List Nat))
    (enc : α → List Nat) (xs : List α) (r : List Nat)
    (hlen : xs.length < 4294967296)
    (hf : ∀ x ∈ xs, ∀ r2, f (enc x ++ r2) = some (x, r2)) :
    decodeListWith f (encodeListWith enc xs ++ r) = some (xs, r) := by
  unfold encodeListWith natToBytes4
  simp only [List.cons_append, List.nil_append, List.append_assoc]
  rw [decodeListWith]
  rw [bytes4ToNat_natToBytes4 xs.length hlen]
  exact decodeCount_encode f enc xs r hf

theorem decodeDidDocumentBody_encode (d : DidDocument) (r : List Nat)
    (h : isEncodable d = true) :
    decodeDidDocumentBody (encodeDidDocumentBody d ++ r) = some (d, r) := by
  obtain ⟨hid, hvlen, hslen, hvms, hsvcs, -⟩ :
      strOk d.id = true ∧ d.verificationMethod.length < 4294967296 ∧
        d.service.length < 4294967296 ∧
        (∀ vm ∈ d.verificationMethod, vmOk vm = true) ∧
        (∀ sv ∈ d.service, serviceOk sv = true) ∧ True := by
    simp only [isEncodable, Bool.and_eq_true, decide_eq_true_eq,
      List.all_eq_true] at h
    tauto
  unfold encodeDidDocumentBody decodeDidDocumentBody
  rw [List.append_assoc, List.append_assoc]
  rw [decodeString_encodeString d.id _ hid]
  simp only [Option.bind_eq_bind, Option.some_bind]
  rw [decodeListWith_encode decodeVerificationMethod encodeVerificationMethod
    d.verificationMethod _ hvlen
    (fun vm hvm r2 => decodeVerificationMethod_encode vm r2 (hvms vm hvm))]
  simp only [Option.some_bind]
  rw [decodeListWith_encode decodeService encodeService d.service r hslen
    (fun sv hsv r2 => decodeService_encode sv r2 (hsvcs sv hsv))]
  simp only [Option.some_bind, Option.pure_def]

theorem parse_encodeDidDocument (client : LedgerClient) (d : DidDocument)
    (h : isEncodable d = true) :
    (parse_resolve_did_result client (encodeDidDocument d)).result =
      Except.ok d := by
  unfold parse_resolve_did_result encodeDidDocument wireHeader
  simp only [List.cons_append, List.nil_append]
  have hbody : decodeDidDocumentBody (encodeDidDocumentBody d) =
      some (d, []) := by
    simpa using decodeDidDocumentBody_encode d [] h
  simp [hbody]

/-! ## Claim theorems -/

/-- Claim C1: for every valid DID document `d`, encoding `d` via
`buildCreateDidTransaction` and then decoding the transaction's encoded
call data via `parseResolveDidResult` reconstructs a document equal to
`d`: the builder's encode path and the parser's decode path are mutual
inverses. -/
theorem create_parse_round_trip (client : LedgerClient) (fromAddr : String)
    (d : DidDocument) (tx : Transaction)
    (h : (build_create_did_transaction client fromAddr d).result =
      Except.ok tx) :
    (parse_resolve_did_result client tx.callData).result = Except.ok d := by
  unfold build_create_did_transaction at h
  cases ha : isValidAddress fromAddr <;> rw [ha] at h
  · simp at h
  cases hd : isValidDidDocument d <;> rw [hd] at h
  · simp at h
  cases he : isEncodable d <;> rw [he] at h
  · simp at h
  cases hcv : client.chainView <;> rw [hcv] at h <;> simp at h
  obtain ⟨rfl⟩ := h.symm
  exact parse_encodeDidDocument client d he

/-- Claim C1 witness: the sample document survives the build/parse round
trip. -/
theorem create_parse_round_trip_witness :
    (build_create_did_transaction sampleClient sampleFrom sampleDoc).result =
      Except.ok sampleCreateTx ∧
    (parse_resolve_did_result sampleClient sampleCreateTx.callData).result =
      Except.ok sampleDoc := by
  constructor
  · rfl
  · exact create_parse_round_trip sampleClient sampleFrom sampleDoc
      sampleCreateTx rfl

/-- Claim C2: with a sender address failing the fixed-length/format check,
`buildCreateDidTransaction` fails with `ValidationError` for every document
and every client, performing no Ledger Client call (the failure precedes
any I/O) and leaving the client unchanged. -/
theorem create_invalid_address_validation (client : LedgerClient)
    (fromAddr : String) (d : DidDocument)
    (h : isValidAddress fromAddr = false) :
    build_create_did_transaction client fromAddr d =
      ⟨client, [], Except.error VdrError.ValidationError⟩ := by
  unfold build_create_did_transaction
  rw [h]
  simp

/-- Claim C2 witness: the short hex string is rejected before any I/O. -/
theorem create_invalid_address_validation_witness :
    isValidAddress sampleBadAddr = false ∧
    build_create_did_transaction sampleClient sampleBadAddr sampleDoc =
      ⟨sampleClient, [], Except.error VdrError.ValidationError⟩ :=
  ⟨rfl, create_invalid_address_validation sampleClient sampleBadAddr
    sampleDoc rfl⟩

/-- Claim C3: on every byte sequence shorter than the fixed five-byte
header (magic, wire version and presence flag) the resolve-result schema
requires, `parseResolveDidResult` returns `DecodingError` — it is a total
function (no panic) and returns no document at all. -/
theorem parse_truncated_decoding_error (client : LedgerClient)
    (bytes : List Nat) (h : bytes.length < 5) :
    parse_resolve_did_result client bytes =
      ⟨client, [], Except.error VdrError.DecodingError⟩ := by
  rcases bytes with _ | ⟨a, _ | ⟨b, _ | ⟨c, _ | ⟨d, _ | ⟨e, rest⟩⟩⟩⟩⟩
  · rfl
  · rfl
  · rfl
  · rfl
  · rfl
  · exfalso
    simp only [List.length_cons] at h
    omega

/-- Claim C3 witness: a two-byte input yields `DecodingError`. -/
theorem parse_truncated_decoding_error_witness :
    ([100, 105] : List Nat).length < 5 ∧
    parse_resolve_did_result sampleClient [100, 105] =
      ⟨sampleClient, [], Except.error VdrError.DecodingError⟩ :=
  ⟨by decide, parse_truncated_decoding_error sampleClient [100, 105]
    (by decide)⟩

/-- Every `Result`-typed return is total: an ok value or one error. -/
theorem except_ok_or_error {ε α : Type} (r : Except ε α) :
    (∃ a, r = Except.ok a) ∨ (∃ e, r = Except.error e) := by
  cases r with
  | error e => exact Or.inr ⟨e, rfl⟩
  | ok a => exact Or.inl ⟨a, rfl⟩

/-- Claim C4: each of the five entry points either returns a fully valid
result (a `Transaction`, or a `DidDocument` for the parser) or a single
typed error; no call leaves a partial-success state. -/
theorem entry_points_no_partial_success (client : LedgerClient)
    (fromAddr did : String) (d : DidDocument) (bytes : List Nat) :
    ((∃ tx, (build_create_did_transaction client fromAddr d).result =
        Except.ok tx) ∨
      (∃ e, (build_create_did_transaction client fromAddr d).result =
        Except.error e)) ∧
    ((∃ tx, (build_update_did_transaction client fromAddr d).result =
        Except.ok tx) ∨
      (∃ e, (build_update_did_transaction client fromAddr d).result =
        Except.error e)) ∧
    ((∃ tx, (build_deactivate_did_transaction client fromAddr did).result =
        Except.ok tx) ∨
      (∃ e, (build_deactivate_did_transaction client fromAddr did).result =
        Except.error e)) ∧
    ((∃ tx, (build_resolve_did_transaction client did).result =
        Except.ok tx) ∨
      (∃ e, (build_resolve_did_transaction client did).result =
        Except.error e)) ∧
    ((∃ doc, (parse_resolve_did_result client bytes).result =
        Except.ok doc) ∨
      (∃ e, (parse_resolve_did_result client bytes).result =
        Except.error e)) :=
  ⟨except_ok_or_error _, except_ok_or_error _, except_ok_or_error _,
    except_ok_or_error _, except_ok_or_error _⟩

/-- Claim C5: `buildResolveDidTransaction` is deterministic in the DID and
the client's chain view: two clients with the same chain view and the same
registry contract address (any endpoints) give byte-identical results for
the same DID — in particular two calls on one unchanged client do. -/
theorem resolve_build_deterministic (c1 c2 : LedgerClient) (did : String)
    (hview : c1.chainView = c2.chainView)
    (haddr : c1.contractAddress = c2.contractAddress) :
    (build_resolve_did_transaction c1 did).result =
      (build_resolve_did_transaction c2 did).result := by
  unfold build_resolve_did_transaction
  rw [hview, haddr]
  cases hd : isValidDid did
  · simp [hd]
  · cases hcv : c2.chainView <;> simp [hd, hcv]

/-- Claim C5 witness: two clients differing only in endpoint produce the
same resolve transaction for the sample DID. -/
theorem resolve_build_deterministic_witness :
    (build_resolve_did_transaction sampleClient sampleDid).result =
      (build_resolve_did_transaction sampleClient2 sampleDid).result :=
  resolve_build_deterministic sampleClient sampleClient2 sampleDid rfl rfl

/-- Claim C6: `parseResolveDidResult` is referentially transparent — equal
byte inputs on the same client give equal results, the client is left
unchanged and no state-changing (or any) ledger call is performed. -/
theorem parse_referentially_transparent (c : LedgerClient)
    (b1 b2 : List Nat) (hb : b1 = b2) :
    (parse_resolve_did_result c b1).result =
      (parse_resolve_did_result c b2).result ∧
    (parse_resolve_did_result c b1).clientAfter = c ∧
    (parse_resolve_did_result c b1).calls = [] := by
  subst hb
  exact ⟨rfl, rfl, rfl⟩

/-- Claim C6 witness: parsing the sample encoding twice is stable. -/
theorem parse_referentially_transparent_witness :
    (parse_resolve_did_result sampleClient (encodeDidDocument sampleDoc)).result =
      (parse_resolve_did_result sampleClient (encodeDidDocument sampleDoc)).result ∧
    (parse_resolve_did_result sampleClient (encodeDidDocument sampleDoc)).clientAfter =
      sampleClient ∧
    (parse_resolve_did_result sampleClient (encodeDidDocument sampleDoc)).calls = [] :=
  parse_referentially_transparent sampleClient (encodeDidDocument sampleDoc)
    (encodeDidDocument sampleDoc) rfl

/-- Claim C7: a successful `buildDeactivateDidTransaction` yields a
transaction whose call data is exactly the encoded identifier — no
document payload and no verification-method data is embedded. -/
theorem deactivate_no_document_payload (client : LedgerClient)
    (fromAddr did : String) (tx : Transaction)
    (h : (build_deactivate_did_transaction client fromAddr did).result =
      Except.ok tx) :
    tx.op = DidOperation.deactivate ∧ tx.callData = encodeString did := by
  unfold build_deactivate_did_transaction at h
  cases ha : isValidAddress fromAddr <;> rw [ha] at h
  · simp at h
  cases hd : isValidDid did <;> rw [hd] at h
  · simp at h
  cases hcv : client.chainView <;> rw [hcv] at h <;> simp at h
  obtain ⟨rfl⟩ := h.symm
  exact ⟨rfl, rfl⟩

/-- Claim C7 witness: the sample deactivate transaction carries only the
encoded DID. -/
theorem deactivate_no_document_payload_witness :
    (build_deactivate_did_transaction sampleClient sampleFrom sampleDid).result =
      Except.ok sampleDeactivateTx ∧
    sampleDeactivateTx.op = DidOperation.deactivate ∧
    sampleDeactivateTx.callData = encodeString sampleDid := by
  refine ⟨rfl, ?_⟩
  exact deactivate_no_document_payload sampleClient sampleFrom sampleDid
    sampleDeactivateTx rfl

/-- Claim C8: `buildUpdateDidTransaction` has exactly the contract of
`buildCreateDidTransaction` — same validation, same ledger calls, same
client treatment and the same result — except that the transaction encodes
an update operation; in particular there is no builder-time existence
check beyond what create performs. -/
theorem update_same_contract_as_create (client : LedgerClient)
    (fromAddr : String) (d : DidDocument) :
    (build_update_did_transaction client fromAddr d).clientAfter =
      (build_create_did_transaction client fromAddr d).clientAfter ∧
    (build_update_did_transaction client fromAddr d).calls =
      (build_create_did_transaction client fromAddr d).calls ∧
    (build_update_did_transaction client fromAddr d).result =
      (build_create_did_transaction client fromAddr d).result.map
        (fun tx => { tx with op := DidOperation.update }) := by
  unfold build_update_did_transaction build_create_did_transaction
  cases ha : isValidAddress fromAddr <;>
    cases hd : isValidDidDocument d <;>
      cases he : isEncodable d <;>
        cases hcv : client.chainView <;>
          simp [ha, hd, he, hcv, Except.map]

/-- Claim C9: no entry point mutates the Ledger Client: each of the five
operations takes the client by shared reference and returns it observably
identical, on success and on failure alike. -/
theorem no_client_mutation (client : LedgerClient) (fromAddr did : String)
    (d : DidDocument) (bytes : List Nat) :
    (build_create_did_transaction client fromAddr d).clientAfter = client ∧
    (build_update_did_transaction client fromAddr d).clientAfter = client ∧
    (build_deactivate_did_transaction client fromAddr did).clientAfter =
      client ∧
    (build_resolve_did_transaction client did).clientAfter = client ∧
    (parse_resolve_did_result client bytes).clientAfter = client := by
  unfold build_create_did_transaction build_update_did_transaction
    build_deactivate_did_transaction build_resolve_did_transaction
    parse_resolve_did_result
  cases ha : isValidAddress fromAddr <;>
    cases hd : isValidDidDocument d <;>
      cases he : isEncodable d <;>
        cases hdid : isValidDid did <;>
          cases hcv : client.chainView <;>
            simp [ha, hd, he, hdid, hcv]

/-- Claim C10: `parseResolveDidResult` performs no Ledger Client network
operation on any input, while each of the four builders performs exactly
the one chain-metadata fetch — and only once its input validation has
succeeded. -/
theorem parse_no_network_builders_fetch (client : LedgerClient)
    (fromAddr did : String) (d : DidDocument) (bytes : List Nat) :
    (parse_resolve_did_result client bytes).calls = [] ∧
    (build_create_did_transaction client fromAddr d).calls =
      (if isValidAddress fromAddr && isValidDidDocument d && isEncodable d
        then [LedgerCall.fetchChainMetadata] else []) ∧
    (build_update_did_transaction client fromAddr d).calls =
      (if isValidAddress fromAddr && isValidDidDocument d && isEncodable d
        then [LedgerCall.fetchChainMetadata] else []) ∧
    (build_deactivate_did_transaction client fromAddr did).calls =
      (if isValidAddress fromAddr && isValidDid did
        then [LedgerCall.fetchChainMetadata] else []) ∧
    (build_resolve_did_transaction client did).calls =
      (if isValidDid did then [LedgerCall.fetchChainMetadata] else []) := by
  unfold build_create_did_transaction build_update_did_transaction
    build_deactivate_did_transaction build_resolve_did_transaction
    parse_resolve_did_result
  cases ha : isValidAddress fromAddr <;>
    cases hd : isValidDidDocument d <;>
      cases he : isEncodable d <;>
        cases hdid : isValidDid did <;>
          cases hcv : client.chainView <;>
            simp [ha, hd, he, hdid, hcv]

end IndyBesu
